import Mathlib

/-!
Verification of the build-orchestration core of ungoogled-chromium-windows
(`onlybuild.py`, `onlypatch.py`, `onlyupdate.py`) as a shallow embedding.

Python strings are modelled as `String` or `List Char`, file groups as
association lists (`List (String × String)`), child processes by an explicit
behaviour record, and the entry points as functions from a `World` of
filesystem facts and process exit codes to a trace of steps, an outcome, and
the final `World`.
-/

/-- Behaviour of the child process spawned by the supervisor.
`exitCode = some rc`: the child exits with status `rc` before the deadline.
`exitCode = none`: the child is still running when the deadline elapses; then
`exitsWithinGrace` says whether it exits voluntarily at some point between the
timeout and the end of the 10-second grace wait. -/
structure ChildBehavior where
  exitCode : Option Int
  exitsWithinGrace : Bool
deriving DecidableEq, Repr

/-- Observable actions of `_run_build_process_timeout` after process start. -/
inductive BuildEvent
  | interruptNotice
  | ctrlEvent
  | sleepSec (n : Nat)
  | graceWait (n : Nat)
  | kill
deriving DecidableEq, Repr

/-- How `_run_build_process_timeout` returns to its caller:
normal return, `RuntimeError('Build failed!')`, or `KeyboardInterrupt`. -/
inductive BoundedOutcome
  | completed
  | buildFailed
  | keyboardInterrupt
deriving DecidableEq, Repr

/-- The `for _ in range(n): GenerateConsoleCtrlEvent(...); time.sleep(1)` loop. -/
def signalLoop : Nat → List BuildEvent
  | 0 => []
  | n + 1 => BuildEvent.ctrlEvent :: BuildEvent.sleepSec 1 :: signalLoop n

/-- Embedding of `_run_build_process_timeout` (onlybuild.py lines 60-85):
wait up to the deadline; on normal exit check the return code; on
`TimeoutExpired` print a notice, send the console interrupt 3 times with
1-second sleeps, `wait(10)`, kill only if that grace wait times out, and
raise `KeyboardInterrupt` in either case. -/
def run_build_process_timeout (c : ChildBehavior) : List BuildEvent × BoundedOutcome :=
  match c.exitCode with
  | some rc =>
      if rc = 0 then ([], BoundedOutcome.completed)
      else ([], BoundedOutcome.buildFailed)
  | none =>
      let tail := if c.exitsWithinGrace then [] else [BuildEvent.kill]
      (BuildEvent.interruptNotice :: (signalLoop 3 ++ BuildEvent.graceWait 10 :: tail),
       BoundedOutcome.keyboardInterrupt)

/-- A directory of files: association list from file name to file content.
Copying a file prepends it, so a later copy of the same name shadows an
earlier one (last-writer-wins), matching `shutil.copy2` overwrite semantics. -/
abbrev FileMap := List (String × String)

/-- Filesystem lookup of a file name in a directory. -/
def lookupFile : FileMap → String → Option String
  | [], _ => none
  | (k, v) :: rest, name => if name = k then some v else lookupFile rest name

/-- All entries of a directory carrying a given file name. -/
def filterKey (l : FileMap) (k : String) : FileMap :=
  l.filter (fun p => p.1 == k)

/-- Copy every file of `src` into `dst`, overwriting on name collision
(the inner `for cp_src in rust_dir_src.glob(...)` loop). -/
def copyGroup (dst src : FileMap) : FileMap :=
  src.foldl (fun d p => p :: d) dst

/-- One architecture-specific source bundle: its `bin` and `lib` groups. -/
structure RustBundle where
  bin : FileMap
  lib : FileMap
deriving DecidableEq, Repr

/-- On-disk state of the destination toolchain directory:
merged groups plus the `INSTALLED_VERSION` marker file content. -/
structure RustState where
  dst : RustBundle
  flagFile : Option String
deriving DecidableEq, Repr

/-- Behaviour of the `rustc --version` smoke invocation: whether the spawn
succeeds, what it writes to stdout, and its exit status. -/
structure RustcBehavior where
  spawnOk : Bool
  output : String
  exitCode : Int
deriving DecidableEq, Repr

/-- Observable actions of one `_setup_rust_toolchain` call:
whether any copies ran, whether the smoke invocation was attempted, and
whether an exception escaped the call. -/
structure RustActions where
  copied : Bool
  smokeRan : Bool
  raised : Bool
deriving DecidableEq, Repr

/-- Body of the double loop over source bundles and `['bin', 'lib']`:
`bin` is copied only when the host's 64-bitness equals the bundle's
(the `HOST_CPU_IS_64BIT != (rust_dir_src == RUST_DIR_SRC64)` skip),
`lib` is copied unconditionally. `src.2` marks the x64 bundle. -/
def copyBundleStep (host64 : Bool) (acc : RustBundle) (src : RustBundle × Bool) : RustBundle :=
  let acc1 := if host64 == src.2 then { acc with bin := copyGroup acc.bin src.1.bin } else acc
  { acc1 with lib := copyGroup acc1.lib src.1.lib }

/-- Embedding of `_setup_rust_toolchain` (onlybuild.py lines 88-130):
skip everything when the marker exists; otherwise merge the three source
bundles in order x64, x86, arm, then open the marker file for writing
(creating it) and run `rustc --version` with its stdout redirected there.
`subprocess.run` is called without `check=True`, so a nonzero exit status is
never examined; only a failed spawn raises, and even then the marker file
already exists (empty). -/
def setup_rust_toolchain (host64 : Bool) (src64 src86 srcarm : RustBundle)
    (rustc : RustcBehavior) (st : RustState) : RustState × RustActions :=
  if st.flagFile.isSome then (st, ⟨false, false, false⟩)
  else
    let dst := [(src64, true), (src86, false), (srcarm, false)].foldl (copyBundleStep host64) st.dst
    ({ dst := dst, flagFile := some (if rustc.spawnOk then rustc.output else "") },
     ⟨true, true, !rustc.spawnOk⟩)

/-- The destination bundle produced by provisioning from an empty destination. -/
def provisionedBundle (host64 : Bool) (src64 src86 srcarm : RustBundle)
    (rustc : RustcBehavior) : RustBundle :=
  (setup_rust_toolchain host64 src64 src86 srcarm rustc ⟨⟨[], []⟩, none⟩).1.dst

/-- The default architecture token `"x64"` of `flags.windows.gn`. -/
def tokX64 : List Char := ['x', '6', '4']

/-- The x86 replacement token. -/
def tokX86 : List Char := ['x', '8', '6']

/-- The ARM64 replacement token. -/
def tokArm64 : List Char := ['a', 'r', 'm', '6', '4']

/-- Python `str.replace`: replace every non-overlapping occurrence of `pat`
by `rep`, scanning left to right (replaced text is not rescanned). -/
def replaceTok (pat rep : List Char) (s : List Char) : List Char :=
  match s with
  | [] => []
  | c :: rest =>
      if pat ≠ [] ∧ pat.isPrefixOf (c :: rest) = true then
        rep ++ replaceTok pat rep (rest.drop (pat.length - 1))
      else
        c :: replaceTok pat rep rest
termination_by s.length
decreasing_by
  · simp
    omega
  · simp

/-- Embedding of the text produced by `_setup_build_config`
(onlybuild.py lines 146-155): base flags, a newline, then the Windows overlay
with `x64` rewritten to `x86` or `arm64` when requested (x86 first). -/
def setup_build_config_text (gnFlags windowsFlags : List Char) (x86 arm : Bool) :
    List Char :=
  let base := gnFlags ++ ['\n']
  let w :=
    if x86 then replaceTok tokX64 tokX86 windowsFlags
    else if arm then replaceTok tokX64 tokArm64 windowsFlags
    else windowsFlags
  base ++ w

/-- On-disk state relevant to `_setup_build_config`: whether `out/Default`
exists and the content of `args.gn` if present. -/
structure ConfigState where
  outDirExists : Bool
  argsGn : Option (List Char)
deriving DecidableEq, Repr

/-- Embedding of `_setup_build_config` (onlybuild.py lines 133-155):
create `out/Default` (idempotently), then return without writing when
`args.gn` exists; otherwise compose and write the config text. The returned
`Bool` reports whether the file was written. -/
def setup_build_config (gnFlags windowsFlags : List Char) (x86 arm : Bool)
    (st : ConfigState) : ConfigState × Bool :=
  match st.argsGn with
  | some c => (⟨true, some c⟩, false)
  | none => (⟨true, some (setup_build_config_text gnFlags windowsFlags x86 arm)⟩, true)

/-- The clone platform tag `'win32' if args.x86 else 'win-arm64' if args.arm
else 'win64'` (onlyupdate.py line 97). -/
def target_platform (x86 arm : Bool) : String :=
  if x86 then "win32" else if arm then "win-arm64" else "win64"

/-- The pipeline steps of `onlybuild.py` `main`, in execution order. -/
inductive Step
  | setupRust
  | setupConfig
  | gnBootstrap
  | gnGen
  | buildBindgen
  | ninja
  | package
deriving DecidableEq, Repr

/-- Process exit disposition of one entry-point invocation. -/
inductive MainOutcome
  | success
  | exit1
  | stepFailed
  | cancelled
deriving DecidableEq, Repr

/-- The CLI flags of `onlybuild.py`. -/
structure BuildFlags where
  x86 : Bool
  arm : Bool
  ci : Bool
  skip_gn : Bool
  skip_bindgen : Bool
deriving DecidableEq, Repr

/-- Everything `onlybuild.py` `main` observes or mutates: filesystem facts,
the toolchain/config state, and the exit behaviour of each child process. -/
structure World where
  sourceExists : Bool
  host64 : Bool
  src64 : RustBundle
  src86 : RustBundle
  srcarm : RustBundle
  rustc : RustcBehavior
  rust : RustState
  gnFlags : List Char
  windowsFlags : List Char
  config : ConfigState
  gnExeExists : Bool
  bindgenExists : Bool
  gnBootstrapExit : Int
  gnGenExit : Int
  bindgenExit : Int
  ninjaExit : Int
  ninjaChild : ChildBehavior
  packageExit : Int
deriving DecidableEq, Repr

/-- Final compile (and CI packaging) phase of `main` (onlybuild.py lines
218-229): in CI mode run ninja through the bounded supervisor and then invoke
`package.py` via `subprocess.run` without `check`, whose exit status is never
examined; otherwise run ninja in blocking mode (`check=True`). -/
def mainNinjaPackage (args : BuildFlags) (w : World) (steps : List Step) :
    List Step × MainOutcome × World :=
  if args.ci then
    match (run_build_process_timeout w.ninjaChild).2 with
    | BoundedOutcome.completed => (steps ++ [Step.ninja, Step.package], MainOutcome.success, w)
    | BoundedOutcome.buildFailed => (steps ++ [Step.ninja], MainOutcome.stepFailed, w)
    | BoundedOutcome.keyboardInterrupt => (steps ++ [Step.ninja], MainOutcome.cancelled, w)
  else
    if w.ninjaExit ≠ 0 then (steps ++ [Step.ninja], MainOutcome.stepFailed, w)
    else (steps ++ [Step.ninja], MainOutcome.success, w)

/-- Bindgen phase of `main` (onlybuild.py lines 211-216): run
`build_bindgen.py` in blocking mode unless skipped or the output binary
already exists. -/
def mainBindgen (args : BuildFlags) (w : World) (steps : List Step) :
    List Step × MainOutcome × World :=
  if !args.skip_bindgen && !w.bindgenExists then
    if w.bindgenExit ≠ 0 then (steps ++ [Step.buildBindgen], MainOutcome.stepFailed, w)
    else mainNinjaPackage args { w with bindgenExists := true } (steps ++ [Step.buildBindgen])
  else mainNinjaPackage args w steps

/-- GN phase of `main` (onlybuild.py lines 200-209): unless skipped or
`out/Default/gn.exe` exists, run the GN bootstrap then `gn gen`, both in
blocking mode. -/
def mainGn (args : BuildFlags) (w : World) (steps : List Step) :
    List Step × MainOutcome × World :=
  if !args.skip_gn && !w.gnExeExists then
    if w.gnBootstrapExit ≠ 0 then (steps ++ [Step.gnBootstrap], MainOutcome.stepFailed, w)
    else
      if w.gnGenExit ≠ 0 then
        (steps ++ [Step.gnBootstrap, Step.gnGen], MainOutcome.stepFailed,
         { w with gnExeExists := true })
      else
        mainBindgen args { w with gnExeExists := true } (steps ++ [Step.gnBootstrap, Step.gnGen])
  else mainBindgen args w steps

/-- Embedding of `onlybuild.py` `main` (lines 158-231): fail fast with exit
code 1 when the source tree is missing, otherwise provision the toolchain,
generate the config, and run the GN / bindgen / ninja(+package) phases. -/
def mainBuild (args : BuildFlags) (w : World) : List Step × MainOutcome × World :=
  if !w.sourceExists then ([], MainOutcome.exit1, w)
  else
    let r := setup_rust_toolchain w.host64 w.src64 w.src86 w.srcarm w.rustc w.rust
    if r.2.raised then ([Step.setupRust], MainOutcome.stepFailed, { w with rust := r.1 })
    else
      let c := setup_build_config w.gnFlags w.windowsFlags args.x86 args.arm w.config
      mainGn args { w with rust := r.1, config := c.1 } [Step.setupRust, Step.setupConfig]

/-- The steps the final compile phase appends. -/
def ninjaTail (args : BuildFlags) (w : World) : List Step :=
  if args.ci then
    match (run_build_process_timeout w.ninjaChild).2 with
    | BoundedOutcome.completed => [Step.ninja, Step.package]
    | _ => [Step.ninja]
  else [Step.ninja]

/-- The outcome of the final compile phase. -/
def ninjaOutcome (args : BuildFlags) (w : World) : MainOutcome :=
  if args.ci then
    match (run_build_process_timeout w.ninjaChild).2 with
    | BoundedOutcome.completed => MainOutcome.success
    | BoundedOutcome.buildFailed => MainOutcome.stepFailed
    | BoundedOutcome.keyboardInterrupt => MainOutcome.cancelled
  else
    if w.ninjaExit ≠ 0 then MainOutcome.stepFailed else MainOutcome.success

/-- Sub-steps of `onlypatch.py` `main`, in execution order. -/
inductive PatchStep
  | prune
  | applyPatchesUC
  | applyPatchesWin
  | domainSubst
deriving DecidableEq, Repr

/-- Everything `onlypatch.py` `main` observes: the source-tree precondition
and the pass/fail behaviour of its collaborators. -/
structure PatchWorld where
  sourceExists : Bool
  unremovable : List String
  patchesUCOk : Bool
  patchesWinOk : Bool
  substOk : Bool
deriving DecidableEq, Repr

/-- Embedding of `onlypatch.py` `main` (lines 23-78): fail fast with exit
code 1 when `build/src` is missing; prune binaries (exit 1 listing any
unremovable files); apply the general then the Windows patch series; apply
domain substitutions; each failure aborts the rest. -/
def patchMain (w : PatchWorld) : List PatchStep × MainOutcome :=
  if !w.sourceExists then ([], MainOutcome.exit1)
  else if w.unremovable ≠ [] then ([PatchStep.prune], MainOutcome.exit1)
  else if !w.patchesUCOk then
    ([PatchStep.prune, PatchStep.applyPatchesUC], MainOutcome.stepFailed)
  else if !w.patchesWinOk then
    ([PatchStep.prune, PatchStep.applyPatchesUC, PatchStep.applyPatchesWin],
     MainOutcome.stepFailed)
  else if !w.substOk then
    ([PatchStep.prune, PatchStep.applyPatchesUC, PatchStep.applyPatchesWin,
      PatchStep.domainSubst], MainOutcome.stepFailed)
  else
    ([PatchStep.prune, PatchStep.applyPatchesUC, PatchStep.applyPatchesWin,
      PatchStep.domainSubst], MainOutcome.success)

/-- A concrete world for witnesses: source tree present, fresh provisioning
state, all children succeed except packaging (exit 1). -/
def demoWorld : World :=
  { sourceExists := true
    host64 := true
    src64 := ⟨[("r64", "c64")], [("l64", "cl64")]⟩
    src86 := ⟨[("r86", "c86")], [("l86", "cl86")]⟩
    srcarm := ⟨[("rarm", "carm")], [("larm", "clarm")]⟩
    rustc := ⟨true, "rustc 1.0", 0⟩
    rust := ⟨⟨[], []⟩, none⟩
    gnFlags := ['g']
    windowsFlags := ['w']
    config := ⟨false, none⟩
    gnExeExists := false
    bindgenExists := false
    gnBootstrapExit := 0
    gnGenExit := 0
    bindgenExit := 0
    ninjaExit := 0
    ninjaChild := ⟨some 0, true⟩
    packageExit := 1 }

/-! ## Helper lemmas and claim theorems -/

/-- C1: in bounded mode, when the deadline elapses while the child is still
running, the supervisor first emits the operator-visible notice, sends the
console interrupt exactly 3 times with a 1-second sleep after each, then
waits a 10-second grace period; the outcome is the cancellation exception
(`KeyboardInterrupt`); the child is force-killed precisely when it does not
exit within the grace period, and a child that exits voluntarily within the
grace period is never killed. -/
theorem bounded_timeout_escalation (c : ChildBehavior) (h : c.exitCode = none) :
    (run_build_process_timeout c).2 = BoundedOutcome.keyboardInterrupt
    ∧ (run_build_process_timeout c).1.head? = some BuildEvent.interruptNotice
    ∧ (run_build_process_timeout c).1.count BuildEvent.ctrlEvent = 3
    ∧ (run_build_process_timeout c).1.count (BuildEvent.sleepSec 1) = 3
    ∧ BuildEvent.graceWait 10 ∈ (run_build_process_timeout c).1
    ∧ (BuildEvent.kill ∈ (run_build_process_timeout c).1 ↔ c.exitsWithinGrace = false)
    ∧ (c.exitsWithinGrace = false →
        (run_build_process_timeout c).1.getLast? = some BuildEvent.kill) := by
  obtain ⟨ec, g⟩ := c
  cases h
  cases g <;> simp [run_build_process_timeout, signalLoop, List.count_cons]

/-- Witness for `bounded_timeout_escalation` at a concrete child that times
out and then exits during the grace period. -/
theorem bounded_timeout_escalation_witness :
    (run_build_process_timeout ⟨none, true⟩).2 = BoundedOutcome.keyboardInterrupt
    ∧ (run_build_process_timeout ⟨none, true⟩).1.head? = some BuildEvent.interruptNotice
    ∧ (run_build_process_timeout ⟨none, true⟩).1.count BuildEvent.ctrlEvent = 3
    ∧ (run_build_process_timeout ⟨none, true⟩).1.count (BuildEvent.sleepSec 1) = 3
    ∧ BuildEvent.graceWait 10 ∈ (run_build_process_timeout ⟨none, true⟩).1
    ∧ (BuildEvent.kill ∈ (run_build_process_timeout ⟨none, true⟩).1 ↔
        (⟨none, true⟩ : ChildBehavior).exitsWithinGrace = false)
    ∧ ((⟨none, true⟩ : ChildBehavior).exitsWithinGrace = false →
        (run_build_process_timeout ⟨none, true⟩).1.getLast? = some BuildEvent.kill) :=
  bounded_timeout_escalation ⟨none, true⟩ rfl

theorem copyGroup_eq (dst src : FileMap) : copyGroup dst src = src.reverse ++ dst := by
  induction src generalizing dst with
  | nil => rfl
  | cons p rest ih =>
      have h1 : copyGroup dst (p :: rest) = copyGroup (p :: dst) rest := rfl
      rw [h1, ih]
      simp

theorem mem_of_lookupFile {l : FileMap} {k v : String}
    (h : lookupFile l k = some v) : (k, v) ∈ l := by
  induction l with
  | nil => simp [lookupFile] at h
  | cons p rest ih =>
      obtain ⟨k1, v1⟩ := p
      by_cases hk : k = k1
      · subst hk
        simp [lookupFile] at h
        simp [h]
      · simp [lookupFile, hk] at h
        exact List.mem_cons_of_mem _ (ih h)

theorem lookupFile_of_filterKey_singleton {l : FileMap} {k v : String}
    (h : filterKey l k = [(k, v)]) : lookupFile l k = some v := by
  induction l with
  | nil => simp [filterKey] at h
  | cons p rest ih =>
      obtain ⟨k1, v1⟩ := p
      by_cases hk : k1 = k
      · subst hk
        simp [filterKey, List.filter_cons] at h
        obtain ⟨hv, hrest⟩ := h
        simp [lookupFile, hv]
      · have hb : ((k1, v1).1 == k) = false := by
          simp [hk]
        simp [filterKey, List.filter_cons, hb] at h
        have := ih (by simpa [filterKey] using h)
        simpa [lookupFile, Ne.symm hk] using this

theorem filterKey_append (a b : FileMap) (k : String) :
    filterKey (a ++ b) k = filterKey a k ++ filterKey b k := by
  simp [filterKey, List.filter_append]

theorem filterKey_reverse (l : FileMap) (k : String) :
    filterKey l.reverse k = (filterKey l k).reverse := by
  simp [filterKey, List.filter_reverse]

theorem provisionedBundle_eval (host64 : Bool) (b64 b86 barm : RustBundle)
    (rb : RustcBehavior) :
    provisionedBundle host64 b64 b86 barm rb =
      ⟨if host64 then copyGroup [] b64.bin else copyGroup (copyGroup [] b86.bin) barm.bin,
       copyGroup (copyGroup (copyGroup [] b64.lib) b86.lib) barm.lib⟩ := by
  cases host64 <;>
    simp [provisionedBundle, setup_rust_toolchain, copyBundleStep]

theorem lookupFile_merge_of_unique (a b c : FileMap) (k v : String)
    (h : filterKey (a ++ b ++ c) k = [(k, v)]) :
    lookupFile (copyGroup (copyGroup (copyGroup [] a) b) c) k = some v := by
  have hsum : filterKey a k ++ filterKey b k ++ filterKey c k = [(k, v)] := by
    simpa [filterKey_append] using h
  apply lookupFile_of_filterKey_singleton
  rw [copyGroup_eq, copyGroup_eq, copyGroup_eq]
  cases hfa : filterKey a k with
  | cons x xs =>
      rw [hfa] at hsum
      simp [List.cons_append] at hsum
      obtain ⟨hx, hxs, hfb, hfc⟩ := hsum
      simp [filterKey_append, filterKey_reverse, hfa, hx, hxs, hfb, hfc]
  | nil =>
      rw [hfa] at hsum
      simp at hsum
      cases hfb : filterKey b k with
      | cons y ys =>
          rw [hfb] at hsum
          simp [List.cons_append] at hsum
          obtain ⟨hy, hys, hfc⟩ := hsum
          simp [filterKey_append, filterKey_reverse, hfa, hfb, hy, hys, hfc]
      | nil =>
          rw [hfb] at hsum
          simp at hsum
          simp [filterKey_append, filterKey_reverse, hfa, hfb, hsum]

/-- C3: `_setup_rust_toolchain` is idempotent. When the `INSTALLED_VERSION`
marker exists the call returns at once with the state untouched, no copies and
no smoke test; and a second call immediately after a first one is always such
a no-op (the first call creates the marker unconditionally), leaving the
destination byte-for-byte unchanged. -/
theorem rust_ensure_idempotent (host64 : Bool) (b64 b86 barm : RustBundle)
    (rb : RustcBehavior) (st : RustState) (v : String)
    (hflag : st.flagFile = some v) :
    setup_rust_toolchain host64 b64 b86 barm rb st = (st, ⟨false, false, false⟩)
    ∧ ∀ st2 : RustState,
        setup_rust_toolchain host64 b64 b86 barm rb
            (setup_rust_toolchain host64 b64 b86 barm rb st2).1 =
          ((setup_rust_toolchain host64 b64 b86 barm rb st2).1, ⟨false, false, false⟩) := by
  constructor
  · simp [setup_rust_toolchain, hflag]
  · intro st2
    cases hf2 : st2.flagFile with
    | some w => simp [setup_rust_toolchain, hf2]
    | none => simp [setup_rust_toolchain, hf2]

/-- Witness for `rust_ensure_idempotent` at a concrete already-provisioned
state. -/
theorem rust_ensure_idempotent_witness :
    setup_rust_toolchain true ⟨[], []⟩ ⟨[], []⟩ ⟨[], []⟩ ⟨true, "rustc 1.0", 0⟩
        ⟨⟨[], []⟩, some "rustc 1.0"⟩ =
      (⟨⟨[], []⟩, some "rustc 1.0"⟩, ⟨false, false, false⟩)
    ∧ ∀ st2 : RustState,
        setup_rust_toolchain true ⟨[], []⟩ ⟨[], []⟩ ⟨[], []⟩ ⟨true, "rustc 1.0", 0⟩
            (setup_rust_toolchain true ⟨[], []⟩ ⟨[], []⟩ ⟨[], []⟩ ⟨true, "rustc 1.0", 0⟩ st2).1 =
          ((setup_rust_toolchain true ⟨[], []⟩ ⟨[], []⟩ ⟨[], []⟩ ⟨true, "rustc 1.0", 0⟩ st2).1,
            ⟨false, false, false⟩) :=
  rust_ensure_idempotent true ⟨[], []⟩ ⟨[], []⟩ ⟨[], []⟩ ⟨true, "rustc 1.0", 0⟩
    ⟨⟨[], []⟩, some "rustc 1.0"⟩ "rustc 1.0" rfl

/-- C4: evaluation of the code at the failing input the claim is about.
When `rustc --version` runs but exits with a nonzero status (here 1,
printing nothing), `_setup_rust_toolchain` does NOT propagate any failure
(no exception: `raised = false`), leaves an empty `INSTALLED_VERSION` marker
behind, and a subsequent call takes that marker as "already provisioned" and
does nothing, contradicting the claim that such a failure is propagated and
provisioning is considered failed. -/
theorem rust_smoke_failure_ignored :
    (setup_rust_toolchain true ⟨[("rustc.exe", "bin64")], []⟩ ⟨[], []⟩ ⟨[], []⟩
        ⟨true, "", 1⟩ ⟨⟨[], []⟩, none⟩).1.flagFile = some ""
    ∧ (setup_rust_toolchain true ⟨[("rustc.exe", "bin64")], []⟩ ⟨[], []⟩ ⟨[], []⟩
        ⟨true, "", 1⟩ ⟨⟨[], []⟩, none⟩).2.raised = false
    ∧ setup_rust_toolchain true ⟨[("rustc.exe", "bin64")], []⟩ ⟨[], []⟩ ⟨[], []⟩
        ⟨true, "", 1⟩
        (setup_rust_toolchain true ⟨[("rustc.exe", "bin64")], []⟩ ⟨[], []⟩ ⟨[], []⟩
          ⟨true, "", 1⟩ ⟨⟨[], []⟩, none⟩).1 =
      ((setup_rust_toolchain true ⟨[("rustc.exe", "bin64")], []⟩ ⟨[], []⟩ ⟨[], []⟩
          ⟨true, "", 1⟩ ⟨⟨[], []⟩, none⟩).1, ⟨false, false, false⟩) := by
  refine ⟨rfl, rfl, ?_⟩
  decide

/-- C2, counterexample: on a non-64-bit host the destination `bin` group is
NOT populated only from the single matching (x86) source bundle — the ARM
bundle's executables land there too. Concretely, with one distinct file per
bundle, the file that only the ARM bundle provides appears in the destination
`bin`, refuting "populated only from the single source bundle whose
architecture matches the running host's pointer width". -/
theorem rust_bin_single_bundle_counterexample :
    ¬ (∀ k v : String,
        lookupFile (provisionedBundle false ⟨[("r64", "c64")], []⟩ ⟨[("r86", "c86")], []⟩
            ⟨[("rarm", "carm")], []⟩ ⟨true, "v", 0⟩).bin k = some v →
          (k, v) ∈ ([("r86", "c86")] : FileMap)) := by
  intro hall
  have h1 : lookupFile (provisionedBundle false ⟨[("r64", "c64")], []⟩ ⟨[("r86", "c86")], []⟩
      ⟨[("rarm", "carm")], []⟩ ⟨true, "v", 0⟩).bin "rarm" = some "carm" := by decide
  have h2 := hall "rarm" "carm" h1
  simp at h2

/-- C2 (amended): after provisioning into an empty destination, the `bin`
group is populated only from the 64-bit bundle on a 64-bit host, and from the
32-bit and ARM bundles (both, not a single matching bundle) on a non-64-bit
host; the `lib` group is populated only from the three source bundles, and a
uniquely-named library file (exactly one entry with its name across the three
bundles) is never lost. -/
theorem rust_bin_lib_merge (host64 : Bool) (b64 b86 barm : RustBundle)
    (rb : RustcBehavior) (k v : String) :
    (host64 = true →
      lookupFile (provisionedBundle host64 b64 b86 barm rb).bin k = some v →
        (k, v) ∈ b64.bin)
    ∧ (host64 = false →
        lookupFile (provisionedBundle host64 b64 b86 barm rb).bin k = some v →
          (k, v) ∈ b86.bin ∨ (k, v) ∈ barm.bin)
    ∧ (lookupFile (provisionedBundle host64 b64 b86 barm rb).lib k = some v →
        (k, v) ∈ b64.lib ∨ (k, v) ∈ b86.lib ∨ (k, v) ∈ barm.lib)
    ∧ (filterKey (b64.lib ++ b86.lib ++ barm.lib) k = [(k, v)] →
        lookupFile (provisionedBundle host64 b64 b86 barm rb).lib k = some v) := by
  have he := provisionedBundle_eval host64 b64 b86 barm rb
  refine ⟨?_, ?_, ?_, ?_⟩
  · intro h64 hl
    subst h64
    rw [he] at hl
    simp only [if_pos rfl, copyGroup_eq] at hl
    have hm := mem_of_lookupFile hl
    simpa using hm
  · intro h64 hl
    subst h64
    rw [he] at hl
    simp only [Bool.false_eq_true, if_neg, copyGroup_eq] at hl
    have hm := mem_of_lookupFile hl
    simp at hm
    tauto
  · intro hl
    rw [he] at hl
    simp only [copyGroup_eq] at hl
    have hm := mem_of_lookupFile hl
    simp at hm
    tauto
  · intro hu
    rw [he]
    exact lookupFile_merge_of_unique b64.lib b86.lib barm.lib k v hu

/-- Witness for `rust_bin_lib_merge`: a 64-bit host with one distinct file in
each group of each bundle; the 64-bit executable is traced to the 64-bit
bundle, and the uniquely-named x86 library file survives the merge. -/
theorem rust_bin_lib_merge_witness :
    ("r64", "c64") ∈ (⟨[("r64", "c64")], [("l64", "cl64")]⟩ : RustBundle).bin
    ∧ lookupFile (provisionedBundle true ⟨[("r64", "c64")], [("l64", "cl64")]⟩
        ⟨[("r86", "c86")], [("l86", "cl86")]⟩ ⟨[("rarm", "carm")], [("larm", "clarm")]⟩
        ⟨true, "v", 0⟩).lib "l86" = some "cl86" :=
  ⟨(rust_bin_lib_merge true ⟨[("r64", "c64")], [("l64", "cl64")]⟩
      ⟨[("r86", "c86")], [("l86", "cl86")]⟩ ⟨[("rarm", "carm")], [("larm", "clarm")]⟩
      ⟨true, "v", 0⟩ "r64" "c64").1 rfl (by decide),
   (rust_bin_lib_merge true ⟨[("r64", "c64")], [("l64", "cl64")]⟩
      ⟨[("r86", "c86")], [("l86", "cl86")]⟩ ⟨[("rarm", "carm")], [("larm", "clarm")]⟩
      ⟨true, "v", 0⟩ "l86" "cl86").2.2.2 (by decide)⟩

theorem replaceTok_nil (pat rep : List Char) : replaceTok pat rep [] = [] := by
  rw [replaceTok.eq_def]

theorem replaceTok_cons (pat rep : List Char) (c : Char) (rest : List Char) :
    replaceTok pat rep (c :: rest) =
      if pat ≠ [] ∧ pat.isPrefixOf (c :: rest) = true then
        rep ++ replaceTok pat rep (rest.drop (pat.length - 1))
      else c :: replaceTok pat rep rest := by
  rw [replaceTok.eq_def]

theorem tokX64_head_mismatch {c : Char} (rest : List Char) (hc : c ≠ 'x') :
    ¬(tokX64 ≠ [] ∧ tokX64.isPrefixOf (c :: rest) = true) := by
  intro h
  obtain ⟨-, hp⟩ := h
  simp [tokX64, List.isPrefixOf] at hp
  exact hc hp.1.symm

theorem replaceTok_id_of_not_mem (rep : List Char) {s : List Char}
    (h : 'x' ∉ s) : replaceTok tokX64 rep s = s := by
  induction s with
  | nil => exact replaceTok_nil _ _
  | cons c rest ih =>
      have hc : c ≠ 'x' := fun hcx => h (hcx ▸ List.mem_cons_self c rest)
      rw [replaceTok_cons, if_neg (tokX64_head_mismatch rest hc)]
      rw [ih (fun hm => h (List.mem_cons_of_mem c hm))]

theorem replaceTok_single (rep : List Char) {pre post : List Char}
    (hpre : 'x' ∉ pre) (hpost : 'x' ∉ post) :
    replaceTok tokX64 rep (pre ++ tokX64 ++ post) = pre ++ rep ++ post := by
  induction pre with
  | nil =>
      have h1 : (([] : List Char) ++ tokX64 ++ post) = 'x' :: ('6' :: ('4' :: post)) := by
        simp [tokX64]
      rw [h1, replaceTok_cons, if_pos]
      · have h2 : (('6' : Char) :: ('4' :: post)).drop (tokX64.length - 1) = post := by
          simp [tokX64]
        rw [h2, replaceTok_id_of_not_mem rep hpost]
        simp
      · exact ⟨by simp [tokX64], by simp [tokX64, List.isPrefixOf]⟩
  | cons c pre' ih =>
      have hc : c ≠ 'x' := fun hcx => hpre (hcx ▸ List.mem_cons_self c pre')
      have h1 : ((c :: pre') ++ tokX64 ++ post) = c :: (pre' ++ tokX64 ++ post) := by
        simp
      rw [h1, replaceTok_cons, if_neg (tokX64_head_mismatch _ hc)]
      rw [ih (fun hm => hpre (List.mem_cons_of_mem c hm))]
      simp

/-- C5: the generated config is always base + newline + (possibly rewritten)
overlay: the base-document portion (first `base.length + 1` characters) is
byte-identical regardless of selector, and for an overlay containing the
default token `x64` (with `x` occurring nowhere else), the x86 selector
yields the overlay with the token rewritten to `x86` and the ARM selector
yields it rewritten to `arm64`, the rest of the overlay untouched. -/
theorem config_substitution (base pre post : List Char)
    (hpre : 'x' ∉ pre) (hpost : 'x' ∉ post) :
    (∀ (ov : List Char) (x86 arm : Bool),
      (setup_build_config_text base ov x86 arm).take (base.length + 1) = base ++ ['\n'])
    ∧ setup_build_config_text base (pre ++ tokX64 ++ post) true false
        = (base ++ ['\n']) ++ (pre ++ tokX86 ++ post)
    ∧ setup_build_config_text base (pre ++ tokX64 ++ post) false true
        = (base ++ ['\n']) ++ (pre ++ tokArm64 ++ post) := by
  refine ⟨?_, ?_, ?_⟩
  · intro ov x86 arm
    show ((base ++ ['\n']) ++ _).take (base.length + 1) = base ++ ['\n']
    have hlen : (base ++ ['\n']).length = base.length + 1 := by simp
    rw [← hlen, List.take_left]
  · show (base ++ ['\n']) ++ replaceTok tokX64 tokX86 (pre ++ tokX64 ++ post)
        = (base ++ ['\n']) ++ (pre ++ tokX86 ++ post)
    rw [replaceTok_single tokX86 hpre hpost]
  · show (base ++ ['\n']) ++ replaceTok tokX64 tokArm64 (pre ++ tokX64 ++ post)
        = (base ++ ['\n']) ++ (pre ++ tokArm64 ++ post)
    rw [replaceTok_single tokArm64 hpre hpost]

/-- Witness for `config_substitution` at a one-character base and an overlay
`p` ++ `x64` ++ `q`. -/
theorem config_substitution_witness :
    (setup_build_config_text ['b'] (['p'] ++ tokX64 ++ ['q']) false false).take
        (['b'].length + 1) = ['b'] ++ ['\n']
    ∧ setup_build_config_text ['b'] (['p'] ++ tokX64 ++ ['q']) true false
        = (['b'] ++ ['\n']) ++ (['p'] ++ tokX86 ++ ['q'])
    ∧ setup_build_config_text ['b'] (['p'] ++ tokX64 ++ ['q']) false true
        = (['b'] ++ ['\n']) ++ (['p'] ++ tokArm64 ++ ['q']) :=
  ⟨(config_substitution ['b'] ['p'] ['q'] (by decide) (by decide)).1
      (['p'] ++ tokX64 ++ ['q']) false false,
   (config_substitution ['b'] ['p'] ['q'] (by decide) (by decide)).2.1,
   (config_substitution ['b'] ['p'] ['q'] (by decide) (by decide)).2.2⟩

/-- C6: `_setup_build_config` never overwrites an existing `args.gn`: when the
file exists the call performs no write and its contents stay unchanged even
under different base/overlay documents, and any second call after a first one
writes nothing and preserves the file produced by the first. -/
theorem config_ensure_idempotent (b1 w1 b2 w2 : List Char) (x a x' a' : Bool)
    (st : ConfigState) (c : List Char) (hexists : st.argsGn = some c) :
    (setup_build_config b2 w2 x' a' st).2 = false
    ∧ (setup_build_config b2 w2 x' a' st).1.argsGn = some c
    ∧ ∀ st2 : ConfigState,
        (setup_build_config b2 w2 x' a' (setup_build_config b1 w1 x a st2).1).2 = false
        ∧ (setup_build_config b2 w2 x' a' (setup_build_config b1 w1 x a st2).1).1.argsGn
            = (setup_build_config b1 w1 x a st2).1.argsGn := by
  refine ⟨?_, ?_, ?_⟩
  · simp [setup_build_config, hexists]
  · simp [setup_build_config, hexists]
  · intro st2
    cases h2 : st2.argsGn <;> simp [setup_build_config, h2]

/-- Witness for `config_ensure_idempotent` at a concrete existing config. -/
theorem config_ensure_idempotent_witness :
    (setup_build_config ['b'] ['w'] false false ⟨true, some ['c']⟩).2 = false
    ∧ (setup_build_config ['b'] ['w'] false false ⟨true, some ['c']⟩).1.argsGn = some ['c']
    ∧ ∀ st2 : ConfigState,
        (setup_build_config ['b'] ['w'] false false
            (setup_build_config ['a'] ['v'] true false st2).1).2 = false
        ∧ (setup_build_config ['b'] ['w'] false false
              (setup_build_config ['a'] ['v'] true false st2).1).1.argsGn
            = (setup_build_config ['a'] ['v'] true false st2).1.argsGn :=
  config_ensure_idempotent ['a'] ['v'] ['b'] ['w'] true false false false
    ⟨true, some ['c']⟩ ['c'] rfl

/-- C10: when both the x86 and ARM64 flags are set, x86 silently wins in
every entry point: the config text and the stateful config generation are
those of the x86-only invocation (the ARM64 branch is unreachable, the
overlay token becomes `x86`), and the clone platform tag is the 32-bit
`win32`; neither function has an error path for the flag combination. -/
theorem x86_precedence_over_arm (base ov : List Char) (st : ConfigState) :
    setup_build_config_text base ov true true = setup_build_config_text base ov true false
    ∧ setup_build_config_text base ov true true
        = (base ++ ['\n']) ++ replaceTok tokX64 tokX86 ov
    ∧ setup_build_config base ov true true st = setup_build_config base ov true false st
    ∧ target_platform true true = "win32"
    ∧ target_platform true true = target_platform true false := by
  refine ⟨rfl, rfl, ?_, rfl, rfl⟩
  cases h : st.argsGn <;> simp [setup_build_config, h, setup_build_config_text]

theorem mainNinjaPackage_eval (args : BuildFlags) (w : World) (steps : List Step) :
    mainNinjaPackage args w steps = (steps ++ ninjaTail args w, ninjaOutcome args w, w) := by
  cases hci : args.ci <;> simp [mainNinjaPackage, ninjaTail, ninjaOutcome, hci]
  · split <;> rfl
  · cases ho : (run_build_process_timeout w.ninjaChild).2 <;> simp [ho]

theorem setup_rust_raised (host64 : Bool) (b64 b86 barm : RustBundle)
    (rb : RustcBehavior) (st : RustState) (h : rb.spawnOk = true) :
    (setup_rust_toolchain host64 b64 b86 barm rb st).2.raised = false := by
  cases hf : st.flagFile <;> simp [setup_rust_toolchain, hf, h]

theorem mainGn_eval (args : BuildFlags) (w : World) (steps : List Step)
    (hb : w.gnBootstrapExit = 0) (hg : w.gnGenExit = 0) (hbg : w.bindgenExit = 0) :
    (mainGn args w steps).1 =
      steps
        ++ (if args.skip_gn = false ∧ w.gnExeExists = false
            then [Step.gnBootstrap, Step.gnGen] else [])
        ++ (if args.skip_bindgen = false ∧ w.bindgenExists = false
            then [Step.buildBindgen] else [])
        ++ ninjaTail args w
    ∧ (mainGn args w steps).2.1 = ninjaOutcome args w := by
  cases hsg : args.skip_gn <;> cases hge : w.gnExeExists <;>
  cases hsb : args.skip_bindgen <;> cases hbe : w.bindgenExists <;>
    simp [mainGn, mainBindgen, hsg, hge, hsb, hbe, hb, hg, hbg,
      mainNinjaPackage_eval, ninjaTail, ninjaOutcome]

theorem ninjaTail_sub (args : BuildFlags) (w : World) :
    ∀ s ∈ ninjaTail args w, s = Step.ninja ∨ s = Step.package := by
  intro s hs
  by_cases hci : args.ci = true
  · simp only [ninjaTail, hci, if_true] at hs
    cases ho : (run_build_process_timeout w.ninjaChild).2 <;> rw [ho] at hs <;>
      simp at hs <;> tauto
  · simp only [ninjaTail, hci, if_false, Bool.not_eq_true] at hs
    simp at hs
    tauto

theorem not_mem_ninjaTail {s : Step} (args : BuildFlags) (w : World)
    (h1 : s ≠ Step.ninja) (h2 : s ≠ Step.package) : s ∉ ninjaTail args w := by
  intro hs
  rcases ninjaTail_sub args w s hs with h | h
  · exact h1 h
  · exact h2 h

theorem mainBuild_eval (args : BuildFlags) (w : World)
    (hsrc : w.sourceExists = true) (hsp : w.rustc.spawnOk = true) :
    mainBuild args w =
      mainGn args
        { w with
          rust := (setup_rust_toolchain w.host64 w.src64 w.src86 w.srcarm w.rustc w.rust).1,
          config := (setup_build_config w.gnFlags w.windowsFlags args.x86 args.arm w.config).1 }
        [Step.setupRust, Step.setupConfig] := by
  have hr := setup_rust_raised w.host64 w.src64 w.src86 w.srcarm w.rustc w.rust hsp
  simp [mainBuild, hsrc, hr]

/-- C7: with the source tree present and all blocking steps succeeding, the
GN bootstrap and `gn gen` pair appears in the executed steps iff the skip
flag is unset AND `gn.exe` is absent (presence of the binary alone skips
both), bootstrap immediately before gen; and the bindgen build appears iff
its skip flag is unset AND `bindgen.exe` is absent. -/
theorem gn_bindgen_gating (args : BuildFlags) (w : World)
    (hsrc : w.sourceExists = true) (hsp : w.rustc.spawnOk = true)
    (hb : w.gnBootstrapExit = 0) (hg : w.gnGenExit = 0) (hbg : w.bindgenExit = 0) :
    (Step.gnBootstrap ∈ (mainBuild args w).1 ↔
      args.skip_gn = false ∧ w.gnExeExists = false)
    ∧ (Step.gnGen ∈ (mainBuild args w).1 ↔
      args.skip_gn = false ∧ w.gnExeExists = false)
    ∧ (args.skip_gn = false → w.gnExeExists = false →
        ∃ l, (mainBuild args w).1 =
          [Step.setupRust, Step.setupConfig, Step.gnBootstrap, Step.gnGen] ++ l)
    ∧ (Step.buildBindgen ∈ (mainBuild args w).1 ↔
      args.skip_bindgen = false ∧ w.bindgenExists = false) := by
  rw [mainBuild_eval args w hsrc hsp]
  set w' : World := { w with
    rust := (setup_rust_toolchain w.host64 w.src64 w.src86 w.srcarm w.rustc w.rust).1,
    config := (setup_build_config w.gnFlags w.windowsFlags args.x86 args.arm w.config).1 }
    with hw'
  obtain ⟨h1, h2⟩ := mainGn_eval args w' [Step.setupRust, Step.setupConfig] hb hg hbg
  rw [h1]
  have hge : w'.gnExeExists = w.gnExeExists := rfl
  have hbe : w'.bindgenExists = w.bindgenExists := rfl
  rw [hge, hbe]
  have hn1 : Step.gnBootstrap ∉ ninjaTail args w' :=
    not_mem_ninjaTail args w' (by simp) (by simp)
  have hn2 : Step.gnGen ∉ ninjaTail args w' :=
    not_mem_ninjaTail args w' (by simp) (by simp)
  have hn3 : Step.buildBindgen ∉ ninjaTail args w' :=
    not_mem_ninjaTail args w' (by simp) (by simp)
  refine ⟨?_, ?_, ?_, ?_⟩
  · by_cases hc1 : args.skip_gn = false ∧ w.gnExeExists = false <;>
    by_cases hc2 : args.skip_bindgen = false ∧ w.bindgenExists = false <;>
      simp [hc1, hc2, hn1]
  · by_cases hc1 : args.skip_gn = false ∧ w.gnExeExists = false <;>
    by_cases hc2 : args.skip_bindgen = false ∧ w.bindgenExists = false <;>
      simp [hc1, hc2, hn2]
  · intro hsg hgne
    simp [hsg, hgne]
  · by_cases hc1 : args.skip_gn = false ∧ w.gnExeExists = false <;>
    by_cases hc2 : args.skip_bindgen = false ∧ w.bindgenExists = false <;>
      simp [hc1, hc2, hn3]

/-- C9: with the source tree present and all earlier steps succeeding, in CI
mode a bounded-mode compile that exits 0 is followed by the packaging
invocation as the final step and the pipeline outcome is success — for EVERY
value of `packageExit`, i.e. a packaging failure does not change the
compile's success status; and outside CI mode packaging is never invoked. -/
theorem ci_packaging (args : BuildFlags) (w : World)
    (hsrc : w.sourceExists = true) (hsp : w.rustc.spawnOk = true)
    (hb : w.gnBootstrapExit = 0) (hg : w.gnGenExit = 0) (hbg : w.bindgenExit = 0) :
    (args.ci = true → w.ninjaChild.exitCode = some 0 →
      (mainBuild args w).2.1 = MainOutcome.success
      ∧ (mainBuild args w).1.getLast? = some Step.package)
    ∧ (args.ci = false → Step.package ∉ (mainBuild args w).1) := by
  rw [mainBuild_eval args w hsrc hsp]
  set w' : World := { w with
    rust := (setup_rust_toolchain w.host64 w.src64 w.src86 w.srcarm w.rustc w.rust).1,
    config := (setup_build_config w.gnFlags w.windowsFlags args.x86 args.arm w.config).1 }
    with hw'
  obtain ⟨h1, h2⟩ := mainGn_eval args w' [Step.setupRust, Step.setupConfig] hb hg hbg
  have hnc : w'.ninjaChild = w.ninjaChild := rfl
  constructor
  · intro hci hex
    have hcomp : (run_build_process_timeout w'.ninjaChild).2 = BoundedOutcome.completed := by
      rw [hnc]
      simp [run_build_process_timeout, hex]
    have htail : ninjaTail args w' = [Step.ninja, Step.package] := by
      simp [ninjaTail, hci, hcomp]
    constructor
    · rw [h2]
      simp [ninjaOutcome, hci, hcomp]
    · rw [h1, htail]
      rw [List.getLast?_append_of_ne_nil _ (by simp)]
      rfl
  · intro hci
    have htail : ninjaTail args w' = [Step.ninja] := by
      simp [ninjaTail, hci]
    rw [h1, htail]
    by_cases hc1 : args.skip_gn = false ∧ w'.gnExeExists = false <;>
    by_cases hc2 : args.skip_bindgen = false ∧ w'.bindgenExists = false <;>
      simp [hc1, hc2]

/-- C8: when the source tree is absent, both the build entry point and the
patch entry point exit with code 1 after the diagnostic, having run no step
and created no file or directory (the build world is returned unchanged). -/
theorem missing_source_exits_1 (args : BuildFlags) (w : World) (pw : PatchWorld)
    (hw : w.sourceExists = false) (hpw : pw.sourceExists = false) :
    mainBuild args w = ([], MainOutcome.exit1, w)
    ∧ patchMain pw = ([], MainOutcome.exit1) := by
  constructor
  · simp [mainBuild, hw]
  · simp [patchMain, hpw]

/-- Witness for `gn_bindgen_gating` in a fresh CI world with nothing skipped. -/
theorem gn_bindgen_gating_witness :
    (Step.gnBootstrap ∈ (mainBuild ⟨false, false, true, false, false⟩ demoWorld).1 ↔
      (⟨false, false, true, false, false⟩ : BuildFlags).skip_gn = false
        ∧ demoWorld.gnExeExists = false)
    ∧ (Step.gnGen ∈ (mainBuild ⟨false, false, true, false, false⟩ demoWorld).1 ↔
      (⟨false, false, true, false, false⟩ : BuildFlags).skip_gn = false
        ∧ demoWorld.gnExeExists = false)
    ∧ ((⟨false, false, true, false, false⟩ : BuildFlags).skip_gn = false →
        demoWorld.gnExeExists = false →
        ∃ l, (mainBuild ⟨false, false, true, false, false⟩ demoWorld).1 =
          [Step.setupRust, Step.setupConfig, Step.gnBootstrap, Step.gnGen] ++ l)
    ∧ (Step.buildBindgen ∈ (mainBuild ⟨false, false, true, false, false⟩ demoWorld).1 ↔
      (⟨false, false, true, false, false⟩ : BuildFlags).skip_bindgen = false
        ∧ demoWorld.bindgenExists = false) :=
  gn_bindgen_gating ⟨false, false, true, false, false⟩ demoWorld rfl rfl rfl rfl rfl

/-- Witness for `ci_packaging`: in the demo CI world the compile succeeds and
packaging (whose exit code is 1 there) is the final step with outcome
success. -/
theorem ci_packaging_witness :
    (mainBuild ⟨false, false, true, false, false⟩ demoWorld).2.1 = MainOutcome.success
    ∧ (mainBuild ⟨false, false, true, false, false⟩ demoWorld).1.getLast?
        = some Step.package :=
  (ci_packaging ⟨false, false, true, false, false⟩ demoWorld rfl rfl rfl rfl rfl).1 rfl rfl

/-- Witness for `missing_source_exits_1` at concrete worlds without a source
tree. -/
theorem missing_source_exits_1_witness :
    mainBuild ⟨false, false, false, false, false⟩ { demoWorld with sourceExists := false }
        = ([], MainOutcome.exit1, { demoWorld with sourceExists := false })
    ∧ patchMain ⟨false, ["f"], true, true, true⟩ = ([], MainOutcome.exit1) :=
  missing_source_exits_1 ⟨false, false, false, false, false⟩
    { demoWorld with sourceExists := false } ⟨false, ["f"], true, true, true⟩ rfl rfl
